import Mathlib

/-!
# Verification of the go-plex-client real-time event subsystem

A shallow embedding, in Lean 4, of the core of the go-plex-client library:
the flexible scalar decoder (parseFlexibleInt64 / FlexibleInt64 / boolOrInt),
the notification-envelope decoder (NotificationContainer.UnmarshalJSON), the
event registries (NewNotificationEvents / NewWebhook / newWebhookEvent) and
the webhook delivery handler (WebhookEvents.Handler).

The staged sources contain only the test files of the repository; the
implementation files (plex_utils.go, notifications.go, webhook.go) are not
staged.  Each definition below that stands for a missing implementation is
therefore modelled from the specification's §4 component contracts, with the
staged tests fixing the concrete constants (event-name sets, the error string
of newWebhookEvent, the empty-input behaviour of parseFlexibleInt64).

Go's encoding/json layer is modelled by an inductive JSON value type; a raw
byte slice handed to an UnmarshalJSON method is modelled by WireInput: either
the zero-length byte slice or a well-formed JSON document.  Go's int64 is
modelled by Int (no claim under scrutiny involves 64-bit wrap-around), and a
JSON number by Rat (binary floating point plays no role in any claim: the
decoder only ever truncates a decimal literal toward zero).
-/

/-- A well-formed JSON document, as encoding/json reads it. -/
inductive JSONValue where
  | null
  | bool (b : Bool)
  | num (q : Rat)
  | str (s : String)
  | arr (elems : List JSONValue)
  | obj (fields : List (String × JSONValue))

/-- The raw byte slice an UnmarshalJSON method receives: either the
zero-length slice, or non-empty bytes that parse as the JSON document v.
Other malformed byte strings are outside the model's domain. -/
inductive WireInput where
  | empty
  | json (v : JSONValue)

/-- Truncation of a rational toward zero: the effect of Go's int64(f)
conversion on a float value (for the decimal literals at issue). -/
def ratTrunc (q : Rat) : Int :=
  if q < 0 then -(Int.ofNat (q.num.natAbs / q.den)) else Int.ofNat (q.num.natAbs / q.den)

/-- All-digit run to a Nat; none when empty or a non-digit occurs
(the accept/reject core of strconv.ParseInt base 10). -/
def parseNatDigits (cs : List Char) : Option Nat :=
  if cs.isEmpty then none
  else cs.foldlM (fun acc c => if c.isDigit then some (acc * 10 + (c.toNat - 48)) else none) 0

/-- Modelled from the spec: the integer parse a JSON string's contents get
first (strconv.ParseInt, absent from the staged sources).  An optional sign
followed by decimal digits. -/
def parseIntString (s : String) : Option Int :=
  match s.toList with
  | '-' :: rest => (parseNatDigits rest).map (fun n => -(Int.ofNat n))
  | '+' :: rest => (parseNatDigits rest).map Int.ofNat
  | cs => (parseNatDigits cs).map Int.ofNat

/-- Modelled from the spec: the fallback float parse followed by truncation
toward zero (strconv.ParseFloat then int64(f), absent from the staged
sources), for plain decimal literals "digits" or "digits.digits".  Truncation
toward zero of ±a.b is ±a, so only the integer-part digits survive. -/
def parseFloatTrunc (s : String) : Option Int :=
  let core : List Char → Option Nat := fun cs =>
    match cs.splitOn '.' with
    | [intDigits, fracDigits] =>
        match parseNatDigits intDigits, parseNatDigits fracDigits with
        | some i, some _ => some i
        | _, _ => none
    | [onlyDigits] => parseNatDigits onlyDigits
    | _ => none
  match s.toList with
  | '-' :: rest => (core rest).map (fun n => -(Int.ofNat n))
  | '+' :: rest => (core rest).map Int.ofNat
  | cs => (core cs).map Int.ofNat

/-- Modelled from the spec (§4.1): what a JSON string normalizes to.  Attempt
integer parse; if that fails, attempt float parse and truncate; if both fail,
or the string is empty, return zero. -/
def parseFlexibleString (s : String) : Int :=
  if s = "" then 0
  else
    match parseIntString s with
    | some i => i
    | none =>
        match parseFloatTrunc s with
        | some i => i
        | none => 0

/-- Modelled from the spec: parseFlexibleInt64 of plex_utils.go (absent from
the staged sources; only its tests are staged).  §4.1: a JSON number is
parsed directly, truncating toward zero; a JSON string goes through
parseFlexibleString; JSON null is zero; a JSON object or array where a
scalar was expected is the one DecodeError case.  A JSON boolean is not
named by the spec and, since a structural mismatch is described as "the one
case which should propagate", it falls under the robustness default of
zero.  The zero-length byte slice returns 0 with no error, as the staged
test TestParseFlexibleInt64 ("empty bytes") records. -/
def parseFlexibleInt64 : WireInput → Except String Int
  | .empty => .ok 0
  | .json v =>
    match v with
    | .num q => .ok (ratTrunc q)
    | .str s => .ok (parseFlexibleString s)
    | .null => .ok 0
    | .bool _ => .ok 0
    | .arr _ => .error "cannot decode JSON array as int64"
    | .obj _ => .error "cannot decode JSON object as int64"

/-- Is an Except an error? -/
def isErr {α : Type} : Except String α → Bool
  | .error _ => true
  | .ok _ => false

/-- Is an Except a success? -/
def isOk {α : Type} : Except String α → Bool
  | .error _ => false
  | .ok _ => true

/-- Modelled from the spec: boolOrInt.UnmarshalJSON of plex_utils.go (absent
from the staged sources; only its tests are staged).  §4.1 boolean variant:
accepts JSON true/false directly, or integer 0/1; any other value is a
DecodeError, not silently coerced. -/
def boolOrIntUnmarshal : JSONValue → Except String Bool
  | .bool b => .ok b
  | .num q => if q = 0 then .ok false else if q = 1 then .ok true else .error "invalid bool-or-int value"
  | _ => .error "cannot decode JSON value as bool"

/-- Does a well-formed JSON value have a structural (non-scalar) shape, i.e.
is it an object or an array? -/
def isStructural : JSONValue → Bool
  | .arr _ => true
  | .obj _ => true
  | _ => false

/-- Claim C1: for the six scalar wire inputs 123, "123", "123.9", "", "abc"
and null, the flexible scalar decoder returns 123, 123, 123, 0, 0 and 0
respectively, and returns no error for any of these six inputs. -/
theorem parseFlexibleInt64_six_case_table :
    parseFlexibleInt64 (.json (.num 123)) = .ok 123 ∧
    parseFlexibleInt64 (.json (.str "123")) = .ok 123 ∧
    parseFlexibleInt64 (.json (.str "123.9")) = .ok 123 ∧
    parseFlexibleInt64 (.json (.str "")) = .ok 0 ∧
    parseFlexibleInt64 (.json (.str "abc")) = .ok 0 ∧
    parseFlexibleInt64 (.json .null) = .ok 0 :=
  ⟨rfl, rfl, rfl, rfl, rfl, rfl⟩

/-- Claim C10: the flexible scalar decoder applied to a zero-length byte
slice (empty input, which is not well-formed JSON at all) returns 0 with no
error. -/
theorem parseFlexibleInt64_empty_bytes :
    parseFlexibleInt64 .empty = .ok 0 :=
  rfl

/-- Claim C7: the flexible scalar decoder fails on every well-formed JSON
input that is an object or an array, and that structural-mismatch shape is
the only shape of well-formed JSON input on which it errors. -/
theorem parseFlexibleInt64_err_iff_structural (v : JSONValue) :
    isErr (parseFlexibleInt64 (.json v)) = isStructural v := by
  cases v <;> rfl

/-- Claim C6: the boolean flexible decoder maps JSON false to false, true to
true, integer 0 to false and integer 1 to true, each without error, and
fails with an error on every integer other than 0 or 1. -/
theorem boolOrInt_decode_table (n : Int) (h0 : n ≠ 0) (h1 : n ≠ 1) :
    boolOrIntUnmarshal (.bool false) = .ok false ∧
    boolOrIntUnmarshal (.bool true) = .ok true ∧
    boolOrIntUnmarshal (.num 0) = .ok false ∧
    boolOrIntUnmarshal (.num 1) = .ok true ∧
    isErr (boolOrIntUnmarshal (.num (n : Rat))) = true := by
  have hq0 : ((n : Rat) = 0) = False := by
    simp only [eq_iff_iff, iff_false]
    exact_mod_cast h0
  have hq1 : ((n : Rat) = 1) = False := by
    simp only [eq_iff_iff, iff_false]
    exact_mod_cast h1
  refine ⟨rfl, rfl, rfl, rfl, ?_⟩
  simp [boolOrIntUnmarshal, hq0, hq1, isErr]

/-- Witness for C6 at the concrete boundary input 2: the decoder fails on
the integer 2 rather than coercing it. -/
theorem boolOrInt_decode_table_witness :
    isErr (boolOrIntUnmarshal (.num ((2 : Int) : Rat))) = true :=
  (boolOrInt_decode_table 2 (by decide) (by decide)).2.2.2.2

/-! ## The event envelope decoder (notification container) -/

/-- The first value bound to a key in a JSON object's field list, as
encoding/json resolves a field lookup. -/
def lookupField (fs : List (String × JSONValue)) (k : String) : Option JSONValue :=
  (fs.find? (fun p => p.fst == k)).map (fun p => p.snd)

/-- A struct field of flexible int type: absent leaves Go's zero value,
present routes through the flexible scalar decoder. -/
def getFlexField (fs : List (String × JSONValue)) (k : String) : Except String Int :=
  match lookupField fs k with
  | none => .ok 0
  | some v => parseFlexibleInt64 (.json v)

/-- A struct field of string type: absent or JSON null leaves Go's zero
value "", any non-string shape is a decode error. -/
def getStringField (fs : List (String × JSONValue)) (k : String) : Except String String :=
  match lookupField fs k with
  | none => .ok ""
  | some (.str s) => .ok s
  | some .null => .ok ""
  | some _ => .error "cannot decode JSON value as string"

/-- A struct field of plain (non-flexible) int type: a whole JSON number,
absent or null leaves zero, anything else is a decode error. -/
def getIntField (fs : List (String × JSONValue)) (k : String) : Except String Int :=
  match lookupField fs k with
  | none => .ok 0
  | some (.num q) => if q.den = 1 then .ok q.num else .error "cannot decode fractional number as int"
  | some .null => .ok 0
  | some _ => .error "cannot decode JSON value as int"

/-- A struct field of plain bool type: JSON true/false, absent or null
leaves false, anything else is a decode error. -/
def getBoolField (fs : List (String × JSONValue)) (k : String) : Except String Bool :=
  match lookupField fs k with
  | none => .ok false
  | some (.bool b) => .ok b
  | some .null => .ok false
  | some _ => .error "cannot decode JSON value as bool"

/-- A struct field of flexible bool type (boolOrInt): absent leaves false,
present routes through the boolean flexible decoder. -/
def getFlexBoolField (fs : List (String × JSONValue)) (k : String) : Except String Bool :=
  match lookupField fs k with
  | none => .ok false
  | some v => boolOrIntUnmarshal v

/-- A struct field of float type (TranscodeSession.progress): a JSON
number, absent or null leaves zero, anything else is a decode error. -/
def getNumField (fs : List (String × JSONValue)) (k : String) : Except String Rat :=
  match lookupField fs k with
  | none => .ok 0
  | some (.num q) => .ok q
  | some .null => .ok 0
  | some _ => .error "cannot decode JSON value as number"

/-- Decode every element of a JSON array, all-or-nothing. -/
def decodeList {α : Type} (dec : JSONValue → Except String α) : List JSONValue → Except String (List α)
  | [] => .ok []
  | v :: vs => do
      let a ← dec v
      let as ← decodeList dec vs
      .ok (a :: as)

/-- A struct field holding a payload array: absent or null leaves the empty
list, an array decodes element-wise, any other shape is a decode error. -/
def decodeArrayField {α : Type} (fs : List (String × JSONValue)) (k : String)
    (dec : JSONValue → Except String α) : Except String (List α) :=
  match lookupField fs k with
  | none => .ok []
  | some .null => .ok []
  | some (.arr vs) => decodeList dec vs
  | some _ => .error "cannot decode JSON value as array"

/-- Modelled from the spec: a TimelineEntry payload element (its Go struct
is absent from the staged sources; the field list follows the staged test
fixture of TestNotificationContainer_UnmarshalJSON, with every numeric field
routed through the Flexible Scalar Decoder per §4.2). -/
structure TimelineEntry where
  identifier : String
  itemID : Int
  metadataState : String
  sectionID : Int
  state : Int
  title : String
  type : Int
  updatedAt : Int
deriving DecidableEq

/-- Decode one TimelineEntry from a JSON object. -/
def decodeTimelineEntry : JSONValue → Except String TimelineEntry
  | .obj fs => do
      let identifier ← getStringField fs "identifier"
      let itemID ← getFlexField fs "itemID"
      let metadataState ← getStringField fs "metadataState"
      let sectionID ← getFlexField fs "sectionID"
      let state ← getFlexField fs "state"
      let title ← getStringField fs "title"
      let ty ← getFlexField fs "type"
      let updatedAt ← getFlexField fs "updatedAt"
      .ok { identifier := identifier, itemID := itemID, metadataState := metadataState,
            sectionID := sectionID, state := state, title := title, type := ty,
            updatedAt := updatedAt }
  | _ => .error "cannot decode JSON value as TimelineEntry"

/-- Modelled from the spec: the nested Activity record of an
ActivityNotification (its Go struct is absent from the staged sources; the
field list follows the staged test fixture of
TestActivityNotification_UnmarshalJSON, userID being flexible). -/
structure Activity where
  uuid : String
  type : String
  title : String
  subtitle : String
  userID : Int
deriving DecidableEq

/-- Decode the nested Activity record; JSON null leaves the zero record. -/
def decodeActivity : JSONValue → Except String Activity
  | .obj fs => do
      let uuid ← getStringField fs "uuid"
      let ty ← getStringField fs "type"
      let title ← getStringField fs "title"
      let subtitle ← getStringField fs "subtitle"
      let userID ← getFlexField fs "userID"
      .ok { uuid := uuid, type := ty, title := title, subtitle := subtitle, userID := userID }
  | .null => .ok { uuid := "", type := "", title := "", subtitle := "", userID := 0 }
  | _ => .error "cannot decode JSON value as Activity"

/-- Modelled from the spec: an ActivityNotification payload element (its Go
struct is absent from the staged sources; the field list follows the staged
test fixture of TestActivityNotification_UnmarshalJSON). -/
structure ActivityNotification where
  activity : Activity
  event : String
  uuid : String
deriving DecidableEq

/-- Decode one ActivityNotification from a JSON object; the absent nested
Activity key leaves the zero record. -/
def decodeActivityNotification : JSONValue → Except String ActivityNotification
  | .obj fs => do
      let a ← match lookupField fs "Activity" with
              | none => Except.ok { uuid := "", type := "", title := "", subtitle := "", userID := 0 }
              | some v => decodeActivity v
      let event ← getStringField fs "event"
      let uuid ← getStringField fs "uuid"
      .ok { activity := a, event := event, uuid := uuid }
  | _ => .error "cannot decode JSON value as ActivityNotification"

/-- Modelled from the spec: a PlaySessionStateNotification payload element
(its Go struct is absent from the staged sources; the field list follows
the staged test fixture of TestPlaySessionStateNotification_UnmarshalJSON,
viewOffset and playQueueItemID being flexible). -/
structure PlaySessionStateNotification where
  sessionKey : String
  guid : String
  state : String
  ratingKey : String
  viewOffset : Int
  playQueueItemID : Int
deriving DecidableEq

/-- Decode one PlaySessionStateNotification from a JSON object. -/
def decodePlaySessionStateNotification : JSONValue → Except String PlaySessionStateNotification
  | .obj fs => do
      let sessionKey ← getStringField fs "sessionKey"
      let guid ← getStringField fs "guid"
      let state ← getStringField fs "state"
      let ratingKey ← getStringField fs "ratingKey"
      let viewOffset ← getFlexField fs "viewOffset"
      let playQueueItemID ← getFlexField fs "playQueueItemID"
      .ok { sessionKey := sessionKey, guid := guid, state := state, ratingKey := ratingKey,
            viewOffset := viewOffset, playQueueItemID := playQueueItemID }
  | _ => .error "cannot decode JSON value as PlaySessionStateNotification"

/-- Modelled from the spec: a TranscodeSession payload element (its Go
struct is absent from the staged sources; the field list follows the staged
test fixture of TestNotificationContainer_UnmarshalJSON, the booleans being
flexible per §4.1's boolean variant and duration flexible per §4.2). -/
structure TranscodeSession where
  key : String
  throttled : Bool
  complete : Bool
  progress : Rat
  duration : Int
  context : String
  sourceVideoCodec : String
  sourceAudioCodec : String
deriving DecidableEq

/-- Decode one TranscodeSession from a JSON object. -/
def decodeTranscodeSession : JSONValue → Except String TranscodeSession
  | .obj fs => do
      let key ← getStringField fs "key"
      let throttled ← getFlexBoolField fs "throttled"
      let complete ← getFlexBoolField fs "complete"
      let progress ← getNumField fs "progress"
      let duration ← getFlexField fs "duration"
      let context ← getStringField fs "context"
      let sourceVideoCodec ← getStringField fs "sourceVideoCodec"
      let sourceAudioCodec ← getStringField fs "sourceAudioCodec"
      .ok { key := key, throttled := throttled, complete := complete, progress := progress,
            duration := duration, context := context, sourceVideoCodec := sourceVideoCodec,
            sourceAudioCodec := sourceAudioCodec }
  | _ => .error "cannot decode JSON value as TranscodeSession"

/-- Modelled from the spec (§3 NotificationEnvelope): one pushed event,
with the size, the discriminator kind, and the closed set of payload
variant slots of which at most one is populated.  The variants modelled are
the four the spec names (TimelineEntry, ActivityNotification,
PlaySessionState, TranscodeSession); the remaining known discriminators
carry no modelled payload slot and decode with every slot empty. -/
structure NotificationContainer where
  size : Int
  type : String
  timelineEntry : List TimelineEntry
  activityNotification : List ActivityNotification
  playSessionStateNotification : List PlaySessionStateNotification
  transcodeSession : List TranscodeSession
deriving DecidableEq

/-- The payload variant a discriminator selects. -/
inductive PayloadVariant where
  | timeline
  | activity
  | playing
  | transcode
deriving DecidableEq

/-- Which payload variant a discriminator kind selects; none both for the
known kinds without a modelled payload slot and for unrecognized kinds. -/
def kindVariant : String → Option PayloadVariant
  | "timeline" => some .timeline
  | "activity" => some .activity
  | "playing" => some .playing
  | "transcodeSession.update" => some .transcode
  | _ => none

/-- Modelled from the spec: NotificationContainer.UnmarshalJSON (absent from
the staged sources; only its tests are staged).  §4.2: decode the
discriminator kind first, then decode only the payload array matching that
discriminator; unknown discriminators are retained (the envelope is still
valid) but the payload stays empty; bytes that are not a well-formed JSON
object fail with a decode error. -/
def decodeNotificationContainer : WireInput → Except String NotificationContainer
  | .empty => .error "unexpected end of JSON input"
  | .json (.obj fs) => do
      let n ← getFlexField fs "size"
      let ty ← getStringField fs "type"
      match kindVariant ty with
      | some .timeline => do
          let xs ← decodeArrayField fs "TimelineEntry" decodeTimelineEntry
          .ok { size := n, type := ty, timelineEntry := xs, activityNotification := [],
                playSessionStateNotification := [], transcodeSession := [] }
      | some .activity => do
          let xs ← decodeArrayField fs "ActivityNotification" decodeActivityNotification
          .ok { size := n, type := ty, timelineEntry := [], activityNotification := xs,
                playSessionStateNotification := [], transcodeSession := [] }
      | some .playing => do
          let xs ← decodeArrayField fs "PlaySessionStateNotification" decodePlaySessionStateNotification
          .ok { size := n, type := ty, timelineEntry := [], activityNotification := [],
                playSessionStateNotification := xs, transcodeSession := [] }
      | some .transcode => do
          let xs ← decodeArrayField fs "TranscodeSession" decodeTranscodeSession
          .ok { size := n, type := ty, timelineEntry := [], activityNotification := [],
                playSessionStateNotification := [], transcodeSession := xs }
      | none =>
          .ok { size := n, type := ty, timelineEntry := [], activityNotification := [],
                playSessionStateNotification := [], transcodeSession := [] }
  | .json _ => .error "cannot decode JSON value as NotificationContainer"

/-- Monadic bind on a successful Except is application, definitionally. -/
theorem except_ok_bind {α β : Type} (a : α) (f : α → Except String β) :
    (Except.ok a >>= f : Except String β) = f a :=
  rfl

/-- Claim C2: with the discriminator decoded as a recognized kind and the
matching payload array well formed, envelope decoding succeeds and
populates exactly the payload variant the discriminator selects, leaving
all other variants empty; with an unrecognized kind it still succeeds with
no variant populated; on bytes that are not well-formed JSON it fails. -/
theorem notificationContainer_decode_dispatch
    (fs : List (String × JSONValue)) (n : Int) (ty : String)
    (hsize : getFlexField fs "size" = .ok n)
    (hty : getStringField fs "type" = .ok ty) :
    (∀ xs, kindVariant ty = some .timeline →
        decodeArrayField fs "TimelineEntry" decodeTimelineEntry = .ok xs →
        decodeNotificationContainer (.json (.obj fs)) =
          .ok { size := n, type := ty, timelineEntry := xs, activityNotification := [],
                playSessionStateNotification := [], transcodeSession := [] }) ∧
    (∀ xs, kindVariant ty = some .activity →
        decodeArrayField fs "ActivityNotification" decodeActivityNotification = .ok xs →
        decodeNotificationContainer (.json (.obj fs)) =
          .ok { size := n, type := ty, timelineEntry := [], activityNotification := xs,
                playSessionStateNotification := [], transcodeSession := [] }) ∧
    (∀ xs, kindVariant ty = some .playing →
        decodeArrayField fs "PlaySessionStateNotification" decodePlaySessionStateNotification = .ok xs →
        decodeNotificationContainer (.json (.obj fs)) =
          .ok { size := n, type := ty, timelineEntry := [], activityNotification := [],
                playSessionStateNotification := xs, transcodeSession := [] }) ∧
    (∀ xs, kindVariant ty = some .transcode →
        decodeArrayField fs "TranscodeSession" decodeTranscodeSession = .ok xs →
        decodeNotificationContainer (.json (.obj fs)) =
          .ok { size := n, type := ty, timelineEntry := [], activityNotification := [],
                playSessionStateNotification := [], transcodeSession := xs }) ∧
    (kindVariant ty = none →
        decodeNotificationContainer (.json (.obj fs)) =
          .ok { size := n, type := ty, timelineEntry := [], activityNotification := [],
                playSessionStateNotification := [], transcodeSession := [] }) ∧
    isErr (decodeNotificationContainer .empty) = true := by
  refine ⟨?_, ?_, ?_, ?_, ?_, rfl⟩
  · intro xs hk hdec
    simp [decodeNotificationContainer, hsize, hty, hk, hdec, except_ok_bind]
  · intro xs hk hdec
    simp [decodeNotificationContainer, hsize, hty, hk, hdec, except_ok_bind]
  · intro xs hk hdec
    simp [decodeNotificationContainer, hsize, hty, hk, hdec, except_ok_bind]
  · intro xs hk hdec
    simp [decodeNotificationContainer, hsize, hty, hk, hdec, except_ok_bind]
  · intro hk
    simp [decodeNotificationContainer, hsize, hty, hk, except_ok_bind]

/-- The one TimelineEntry of the staged test fixture, decoded. -/
def timelineEntryFixture : TimelineEntry :=
  { identifier := "com.plexapp.plugins.library", itemID := 123, metadataState := "created",
    sectionID := 1, state := 5, title := "Test Movie", type := 1, updatedAt := 1234567890 }

/-- The "valid timeline notification" envelope of the staged test
TestNotificationContainer_UnmarshalJSON, as a JSON object's field list. -/
def timelineEnvelopeFixture : List (String × JSONValue) :=
  [("size", .num 1), ("type", .str "timeline"),
   ("TimelineEntry", .arr [.obj
     [("identifier", .str "com.plexapp.plugins.library"), ("itemID", .num 123),
      ("metadataState", .str "created"), ("sectionID", .num 1), ("state", .num 5),
      ("title", .str "Test Movie"), ("type", .num 1), ("updatedAt", .num 1234567890)]])]

/-- Witness for C2 at the staged test's timeline envelope: decoding yields
exactly the TimelineEntry variant populated and every other variant empty. -/
theorem notificationContainer_decode_dispatch_witness :
    decodeNotificationContainer (.json (.obj timelineEnvelopeFixture)) =
      .ok { size := 1, type := "timeline", timelineEntry := [timelineEntryFixture],
            activityNotification := [], playSessionStateNotification := [],
            transcodeSession := [] } :=
  (notificationContainer_decode_dispatch timelineEnvelopeFixture 1 "timeline" rfl rfl).1
    [timelineEntryFixture] rfl rfl

/-! ## The event registries and the webhook delivery handler

A Go callback func(payload) has only side effects; here a callback is
modelled as a function from the payload to the list of values it emits to
its observer (the staged tests observe a call through a captured flag), so
"no-op" is the callback that emits nothing and dispatch's emission list
records exactly the invocations that happened, in order. -/

/-- A streaming-notification callback, by its emission trace. -/
def StreamCallback : Type := NotificationContainer → List NotificationContainer

/-- The streaming no-op callback. -/
def noopStream : StreamCallback := fun _ => []

/-- Modelled from the spec: the ten known streaming discriminators of §6
(the constant set lives in the unstaged notifications.go; the staged test
TestNewNotificationEvents lists the same ten). -/
def knownStreamKinds : List String :=
  ["timeline", "playing", "reachability", "transcode.end", "transcodeSession.end",
   "transcodeSession.update", "preference", "update.statechange", "activity",
   "backgroundProcessingQueue"]

/-- The streaming event registry: a mapping from event-kind name to the one
currently registered callback (a Go map holds at most one value per key). -/
structure NotificationEvents where
  events : String → Option StreamCallback

/-- Modelled from the spec: NewNotificationEvents of the unstaged
notifications.go.  §3 EventRegistry: a constructor that pre-populates all
known kinds with no-ops. -/
def NewNotificationEvents : NotificationEvents :=
  { events := fun k => if k ∈ knownStreamKinds then some noopStream else none }

/-- Modelled from the spec: the map assignment an on-event registration
performs (events.events[name] = fn), replacing the previous callback. -/
def setStreamEvent (ne : NotificationEvents) (name : String) (c : StreamCallback) :
    NotificationEvents :=
  { events := fun k => if k = name then some c else ne.events k }

/-- The typed streaming registration wrapper for the "playing" kind. -/
def OnPlaying (ne : NotificationEvents) (c : StreamCallback) : NotificationEvents :=
  setStreamEvent ne "playing" c

/-! ### The webhook side -/

/-- The account record of a webhook delivery's payload. -/
structure WebhookAccount where
  id : Int
  thumb : String
  title : String
deriving DecidableEq

/-- Modelled from the spec: the Webhook payload struct of the unstaged
webhook.go.  §3 WebhookDelivery is "structurally a full media-event record
(server, player, account, metadata, event name)"; the handler's logic reads
only the event name and hands the rest through, so the model keeps the
event name, the two boolean flags and the account record the staged tests
inspect, and elides the remaining pass-through Server/Player/Metadata
blocks. -/
structure Webhook where
  event : String
  user : Bool
  owner : Bool
  account : WebhookAccount
deriving DecidableEq

/-- Decode the nested account record; JSON null leaves the zero record. -/
def decodeWebhookAccount : JSONValue → Except String WebhookAccount
  | .obj fs => do
      let id ← getIntField fs "id"
      let thumb ← getStringField fs "thumb"
      let title ← getStringField fs "title"
      .ok { id := id, thumb := thumb, title := title }
  | .null => .ok { id := 0, thumb := "", title := "" }
  | _ => .error "cannot decode JSON value as Account"

/-- Modelled from the spec: decoding one webhook payload (§4.5: "decodes the
payload into a typed structure using the same discriminator-free model");
the payload self-describes its shape, so any JSON object decodes field-wise
and any other shape is a decode failure. -/
def decodeWebhook : JSONValue → Except String Webhook
  | .obj fs => do
      let event ← getStringField fs "event"
      let user ← getBoolField fs "user"
      let owner ← getBoolField fs "owner"
      let account ← match lookupField fs "Account" with
                    | none => Except.ok { id := 0, thumb := "", title := "" }
                    | some v => decodeWebhookAccount v
      .ok { event := event, user := user, owner := owner, account := account }
  | _ => .error "cannot decode JSON value as Webhook"

/-- A webhook callback, by its emission trace. -/
def WebhookCallback : Type := Webhook → List Webhook

/-- The webhook no-op callback. -/
def noopWebhook : WebhookCallback := fun _ => []

/-- Modelled from the spec: the six known webhook event names of §6 (the
constant set lives in the unstaged webhook.go; the staged test TestNewWebhook
lists the same six). -/
def knownWebhookEvents : List String :=
  ["media.play", "media.pause", "media.resume", "media.stop", "media.scrobble",
   "media.rate"]

/-- The webhook event registry. -/
structure WebhookEvents where
  events : String → Option WebhookCallback

/-- Modelled from the spec: NewWebhook of the unstaged webhook.go, the
constructor that pre-populates every known webhook event name with a no-op. -/
def NewWebhook : WebhookEvents :=
  { events := fun k => if k ∈ knownWebhookEvents then some noopWebhook else none }

/-- Modelled from the spec: newWebhookEvent of the unstaged webhook.go.
§4.3/§4.5 register: replaces the callback for the named kind; fails when the
name is not one of the fixed known event names.  The staged test
TestWebhookEvents_newWebhookEvent fixes the error text "invalid event name". -/
def newWebhookEvent (wh : WebhookEvents) (name : String) (c : WebhookCallback) :
    Except String WebhookEvents :=
  if name ∈ knownWebhookEvents then
    .ok { events := fun k => if k = name then some c else wh.events k }
  else
    .error "invalid event name"

/-- Typed registration wrapper for "media.play". -/
def OnPlay (wh : WebhookEvents) (c : WebhookCallback) : Except String WebhookEvents :=
  newWebhookEvent wh "media.play" c

/-- Typed registration wrapper for "media.pause". -/
def OnPause (wh : WebhookEvents) (c : WebhookCallback) : Except String WebhookEvents :=
  newWebhookEvent wh "media.pause" c

/-- Typed registration wrapper for "media.resume". -/
def OnResume (wh : WebhookEvents) (c : WebhookCallback) : Except String WebhookEvents :=
  newWebhookEvent wh "media.resume" c

/-- Typed registration wrapper for "media.stop". -/
def OnStop (wh : WebhookEvents) (c : WebhookCallback) : Except String WebhookEvents :=
  newWebhookEvent wh "media.stop" c

/-- Typed registration wrapper for "media.scrobble". -/
def OnScrobble (wh : WebhookEvents) (c : WebhookCallback) : Except String WebhookEvents :=
  newWebhookEvent wh "media.scrobble" c

/-- Typed registration wrapper for "media.rate". -/
def OnRate (wh : WebhookEvents) (c : WebhookCallback) : Except String WebhookEvents :=
  newWebhookEvent wh "media.rate" c

/-- One inbound HTTP delivery, as the handler's logic distinguishes it: the
multipart form fails to parse, or it parses with no "payload" field, or the
"payload" field is present and holds these bytes. -/
inductive HandlerInput where
  | badForm
  | noPayload
  | payloadBytes (b : WireInput)

/-- What one handled delivery produces: whether an HTTP error status was
written, and the emission trace of the one dispatched callback (empty when
none was dispatched). -/
structure HandlerResult where
  httpError : Bool
  dispatched : List Webhook
deriving DecidableEq

/-- Modelled from the spec: the Handler method of the unstaged webhook.go.
§4.5: always respond successfully at the HTTP layer; an unparseable form or
an absent payload field is a silent no-op; a payload that fails to decode is
dropped with no dispatch; on successful decode, look the event name up in
the registry and dispatch the one registered callback, an unrecognized name
being a no-op. -/
def Handler (wh : WebhookEvents) : HandlerInput → HandlerResult
  | .badForm => { httpError := false, dispatched := [] }
  | .noPayload => { httpError := false, dispatched := [] }
  | .payloadBytes .empty => { httpError := false, dispatched := [] }
  | .payloadBytes (.json v) =>
      match decodeWebhook v with
      | .error _ => { httpError := false, dispatched := [] }
      | .ok w =>
          match wh.events w.event with
          | none => { httpError := false, dispatched := [] }
          | some c => { httpError := false, dispatched := c w }

/-- Claim C3: both registry constructors pre-populate an entry for every
known event kind, every default entry is the no-op callback (callable, and
emitting nothing when invoked), and registering a callback for a kind
replaces the previous one while leaving every other kind untouched, so a
kind is associated with at most one callback at any time. -/
theorem registry_prepopulated_noop_single
    (k : String) (hk : k ∈ knownStreamKinds)
    (k2 : String) (hk2 : k2 ∈ knownWebhookEvents) :
    NewNotificationEvents.events k = some noopStream ∧
    NewWebhook.events k2 = some noopWebhook ∧
    (∀ n, noopStream n = []) ∧
    (∀ w, noopWebhook w = []) ∧
    (∀ ne name c, (setStreamEvent ne name c).events name = some c) ∧
    (∀ ne name c k3, k3 ≠ name → (setStreamEvent ne name c).events k3 = ne.events k3) ∧
    (∀ wh c wh2, newWebhookEvent wh k2 c = .ok wh2 → wh2.events k2 = some c) := by
  refine ⟨?_, ?_, fun _ => rfl, fun _ => rfl, ?_, ?_, ?_⟩
  · simp [NewNotificationEvents, hk]
  · simp [NewWebhook, hk2]
  · intro ne name c
    simp [setStreamEvent]
  · intro ne name c k3 h
    simp [setStreamEvent, h]
  · intro wh c wh2 hreg
    simp only [newWebhookEvent, hk2, if_true, Except.ok.injEq] at hreg
    subst hreg
    simp

/-- Witness for C3 at the first kind of each constant set: the constructed
registries map "timeline" and "media.play" to the no-op callbacks. -/
theorem registry_prepopulated_noop_single_witness :
    NewNotificationEvents.events "timeline" = some noopStream ∧
    NewWebhook.events "media.play" = some noopWebhook :=
  ⟨(registry_prepopulated_noop_single "timeline" (by decide) "media.play" (by decide)).1,
   (registry_prepopulated_noop_single "timeline" (by decide) "media.play" (by decide)).2.1⟩

/-- Registration for a known name succeeds; shared helper. -/
theorem isOk_newWebhookEvent_of_mem (wh : WebhookEvents) (name : String)
    (c : WebhookCallback) (h : name ∈ knownWebhookEvents) :
    isOk (newWebhookEvent wh name c) = true := by
  simp [newWebhookEvent, h, isOk]

/-- Claim C8: registering through newWebhookEvent succeeds and stores the
callback for each of the six known event names, fails with the "invalid
event name" error for every name outside that fixed set, and the six typed
wrappers always succeed. -/
theorem newWebhookEvent_validates (badName : String) (hbad : badName ∉ knownWebhookEvents) :
    (∀ wh name c, name ∈ knownWebhookEvents →
        ∃ wh2, newWebhookEvent wh name c = .ok wh2 ∧ wh2.events name = some c) ∧
    (∀ wh c, newWebhookEvent wh badName c = .error "invalid event name") ∧
    (∀ wh c, isOk (OnPlay wh c) = true ∧ isOk (OnPause wh c) = true ∧
        isOk (OnResume wh c) = true ∧ isOk (OnStop wh c) = true ∧
        isOk (OnScrobble wh c) = true ∧ isOk (OnRate wh c) = true) := by
  refine ⟨?_, ?_, ?_⟩
  · intro wh name c hname
    refine ⟨{ events := fun k => if k = name then some c else wh.events k }, ?_, ?_⟩
    · simp [newWebhookEvent, hname]
    · simp
  · intro wh c
    simp [newWebhookEvent, hbad]
  · intro wh c
    exact ⟨isOk_newWebhookEvent_of_mem wh "media.play" c (by decide),
           isOk_newWebhookEvent_of_mem wh "media.pause" c (by decide),
           isOk_newWebhookEvent_of_mem wh "media.resume" c (by decide),
           isOk_newWebhookEvent_of_mem wh "media.stop" c (by decide),
           isOk_newWebhookEvent_of_mem wh "media.scrobble" c (by decide),
           isOk_newWebhookEvent_of_mem wh "media.rate" c (by decide)⟩

/-- Witness for C8 at the staged test's unknown name: registering
"invalid.event" on the fresh registry fails with the expected error. -/
theorem newWebhookEvent_validates_witness :
    newWebhookEvent NewWebhook "invalid.event" noopWebhook = .error "invalid event name" :=
  (newWebhookEvent_validates "invalid.event" (by decide)).2.1 NewWebhook noopWebhook

/-- The recording callback the staged tests register: it emits the payload
it was invoked with, so its trace lists its invocations. -/
def recordPlay : WebhookCallback := fun w => [w]

/-- Claim C4: with a handler registered for "media.play", a delivery whose
payload decodes to a webhook with event "media.play" invokes that handler
exactly once with the decoded payload value (in particular with its
Account.ID), while a delivery whose decoded event name lies outside the
known set invokes no handler, and neither response is an HTTP error. -/
theorem webhook_handler_routes (v : JSONValue) (w : Webhook) (wh2 : WebhookEvents)
    (hreg : OnPlay NewWebhook recordPlay = .ok wh2)
    (hdec : decodeWebhook v = .ok w) :
    (w.event = "media.play" →
        Handler wh2 (.payloadBytes (.json v)) = { httpError := false, dispatched := [w] }) ∧
    (w.event ∉ knownWebhookEvents →
        Handler wh2 (.payloadBytes (.json v)) = { httpError := false, dispatched := [] }) := by
  have hmem : "media.play" ∈ knownWebhookEvents := by decide
  have h0 : OnPlay NewWebhook recordPlay =
      .ok { events := fun k => if k = "media.play" then some recordPlay
                               else NewWebhook.events k } := by
    simp [OnPlay, newWebhookEvent, hmem]
  rw [h0] at hreg
  injection hreg with h1
  subst h1
  constructor
  · intro hev
    simp [Handler, hdec, hev, recordPlay]
  · intro hev
    have hne : w.event ≠ "media.play" := fun h => hev (by rw [h]; exact hmem)
    simp [Handler, hdec, NewWebhook, hne, hev]

/-- The registry holding the recording "media.play" handler. -/
def playRegistry : WebhookEvents :=
  { events := fun k => if k = "media.play" then some recordPlay else NewWebhook.events k }

/-- The play payload of the staged complete-flow test, as a JSON object's
field list (Account.ID 123). -/
def playPayloadFixture : List (String × JSONValue) :=
  [("event", .str "media.play"), ("user", .bool true),
   ("Account", .obj [("id", .num 123), ("title", .str "Test User")])]

/-- What the play payload decodes to. -/
def playWebhookFixture : Webhook :=
  { event := "media.play", user := true, owner := false,
    account := { id := 123, thumb := "", title := "Test User" } }

/-- Witness for C4 at the staged complete-flow fixture: the registered
handler is invoked exactly once, with the decoded payload carrying
Account.ID 123. -/
theorem webhook_handler_routes_witness :
    Handler playRegistry (.payloadBytes (.json (.obj playPayloadFixture))) =
      { httpError := false, dispatched := [playWebhookFixture] } :=
  (webhook_handler_routes (.obj playPayloadFixture) playWebhookFixture playRegistry
    rfl rfl).1 rfl

/-- Claim C5: the webhook handler never writes an HTTP error status for any
inbound delivery; an unparseable form and an absent payload field are silent
no-ops, and a payload that is empty or fails to decode dispatches no
callback.  The handler is a total function of its input, so no delivery can
make it panic. -/
theorem webhook_handler_http_safe (wh : WebhookEvents) (v : JSONValue)
    (hbad : isErr (decodeWebhook v) = true) :
    (∀ input, (Handler wh input).httpError = false) ∧
    Handler wh .badForm = { httpError := false, dispatched := [] } ∧
    Handler wh .noPayload = { httpError := false, dispatched := [] } ∧
    Handler wh (.payloadBytes .empty) = { httpError := false, dispatched := [] } ∧
    Handler wh (.payloadBytes (.json v)) = { httpError := false, dispatched := [] } := by
  refine ⟨?_, rfl, rfl, rfl, ?_⟩
  · intro input
    cases input with
    | badForm => rfl
    | noPayload => rfl
    | payloadBytes b =>
      cases b with
      | empty => rfl
      | json v2 =>
        cases hd : decodeWebhook v2 with
        | error e => simp [Handler, hd]
        | ok w =>
          cases hc : wh.events w.event with
          | none => simp [Handler, hd, hc]
          | some c => simp [Handler, hd, hc]
  · cases hd : decodeWebhook v with
    | error e => simp [Handler, hd]
    | ok w =>
      rw [hd] at hbad
      simp [isErr] at hbad

/-- Witness for C5 at concrete deliveries: an unparseable form and a
payload that is not a JSON object are both handled with success at the HTTP
layer and no dispatch. -/
theorem webhook_handler_http_safe_witness :
    Handler NewWebhook .badForm = { httpError := false, dispatched := [] } ∧
    Handler NewWebhook (.payloadBytes (.json (.str "oops"))) =
      { httpError := false, dispatched := [] } :=
  ⟨(webhook_handler_http_safe NewWebhook (.str "oops") rfl).2.1,
   (webhook_handler_http_safe NewWebhook (.str "oops") rfl).2.2.2.2⟩
